import Mathlib

/-!
Shallow embedding of the tenant-isolation core of the multi-tenant
property-management API (Express + Sequelize + PostgreSQL schemas).

Embedded source files:
* `src/middleware/tenantResolver.js` — request-scoped namespace resolver
* `src/middleware/auth.js` — JWT payload normalisation (`decoded.x || null`)
* `src/modules/tenants/tenant.service.js` — onboarding orchestration
* `src/modules/tenants/repository/tenant.repository.js` — TenantRecord store
* `src/utils/schemaManager.js` — `generateSchemaName`, `createSchema`
* `src/migrations/umzug-tenant.js` + `src/migrations/tenant/*` — provisioning
* `src/modules/users/repository/user.repository.js` — user lookups
* `src/modules/users/user.service.js` — `tenantUserLogin`
* `src/config/db.js` — the single shared Sequelize pool

Numbers that reach SQL strings are printed in decimal exactly as the
JavaScript template literals do; `natToDec` below is a fuel-based decimal
printer so that concrete executions reduce inside the kernel.
-/

namespace MultiTenant

/-- Decidable equality of `Except` results, used to evaluate concrete
executions of the fallible operations below. -/
instance instDecEqExcept {e a : Type} [DecidableEq e] [DecidableEq a] :
    DecidableEq (Except e a) := fun x y =>
  match x, y with
  | Except.ok v, Except.ok w =>
    if h : v = w then isTrue (by rw [h])
    else isFalse (fun hc => by injection hc; contradiction)
  | Except.error v, Except.error w =>
    if h : v = w then isTrue (by rw [h])
    else isFalse (fun hc => by injection hc; contradiction)
  | Except.ok _, Except.error _ => isFalse (fun hc => by injection hc)
  | Except.error _, Except.ok _ => isFalse (fun hc => by injection hc)

/-- Decimal digit characters, little helper matching JavaScript number
printing (`Nat.digitChar` from core maps 0-9 to '0'-'9'). -/
def decChars (fuel n : Nat) : List Char :=
  match fuel with
  | 0 => []
  | fuel + 1 =>
    if n < 10 then [Nat.digitChar n]
    else decChars fuel (n / 10) ++ [Nat.digitChar (n % 10)]

/-- Decimal rendering of a natural number, as JavaScript string
interpolation renders a numeric id. -/
def natToDec (n : Nat) : String :=
  ⟨decChars (n + 1) n⟩

/-! ## Data model: the TenantRecord table in the root (`public`) namespace.

From `tenant.repository.js`: columns id (serial), name, contact,
subscription_type, schema_name (unique), is_active (boolean), timestamps.
Only the fields the claims touch are carried here. -/

/-- A committed row of `public.tenants`. -/
structure TenantRecord where
  id : Nat
  name : String
  schema_name : String
  is_active : Bool
deriving DecidableEq, Repr

/-- The resolver's `SELECT ... FROM public.tenants WHERE id = :tenantId`
and `Tenant.findByPk`: first row with the given id. -/
def findTenantById (tenants : List TenantRecord) (tid : Nat) : Option TenantRecord :=
  tenants.find? (fun t => t.id == tid)

/-! ## Authentication claim (middleware/auth.js)

`authenticateToken` verifies the JWT and builds
`req.user = { id, email, role, tenant_id: decoded.tenant_id || null,
tenant_schema: decoded.tenant_schema || null }`.
The `|| null` turns the JavaScript falsy values (absent field, `0`, `""`)
into `null`; `authUser` reproduces exactly that normalisation. -/

/-- Decoded JWT payload fields consumed by the tenant resolver.
`exp` is the token expiry used by `jwt.verify` (seconds). -/
structure TokenPayload where
  role : String
  tenant_id : Option Nat
  tenant_schema : Option String
  exp : Nat
deriving DecidableEq, Repr

/-- The `req.user` object the resolver receives. -/
structure Claim where
  role : String
  tenant_id : Option Nat
  tenant_schema : Option String
deriving DecidableEq, Repr

/-- JavaScript `x || null` on an optional number (`0` is falsy). -/
def jsOrNullNat : Option Nat → Option Nat
  | some n => if n == 0 then none else some n
  | none => none

/-- JavaScript `x || null` on an optional string (`""` is falsy). -/
def jsOrNullStr : Option String → Option String
  | some s => if s == "" then none else some s
  | none => none

/-- `req.user` as built by `authenticateToken` from the decoded payload. -/
def authUser (p : TokenPayload) : Claim :=
  ⟨p.role, jsOrNullNat p.tenant_id, jsOrNullStr p.tenant_schema⟩

/-- `jwt.verify` accepts the token only while it is unexpired; the decoded
payload is then normalised into `req.user`. -/
def authenticateToken (p : TokenPayload) (now : Nat) : Option Claim :=
  if now < p.exp then some (authUser p) else none

/-- JavaScript truthiness of the resolver's `tenantId` local. -/
def truthyOptNat : Option Nat → Bool
  | none => false
  | some n => n != 0

/-- JavaScript truthiness of the resolver's `tenantSchema` local. -/
def truthyOptStr : Option String → Bool
  | none => false
  | some s => s != ""

/-! ## Request-scoped namespace resolver (middleware/tenantResolver.js)

The middleware either calls `next()` after setting the request's schema
(`resolved`) or sends an error response via the catch block (`failed`,
carrying the HTTP status chosen there: 403 for `ForbiddenError`, 401 for
`UnauthorizedError`). -/

/-- Observable outcome of the tenant-resolver middleware. -/
inductive ResolveOutcome where
  | resolved (schema : String)
  | failed (status : Nat) (message : String)
deriving DecidableEq, Repr

/-- `tenantResolver` from `src/middleware/tenantResolver.js`, lines 25-79:
Super Admin goes to `public`; missing tenant info is an
`UnauthorizedError` (401); the tenant is looked up by the claimed id and
must exist (`ForbiddenError` 403, "Tenant not found") and be active
(`ForbiddenError` 403, deactivation message); otherwise the claimed
schema is activated. The registry read is modelled as total, so the
500 catch-all branch of the middleware is unreachable here. -/
def tenantResolver (tenants : List TenantRecord) (u : Claim) : ResolveOutcome :=
  if u.role == "Super Admin" then
    ResolveOutcome.resolved "public"
  else if !(truthyOptNat u.tenant_id && truthyOptStr u.tenant_schema) then
    ResolveOutcome.failed 401 "Tenant information missing in authentication token"
  else
    match findTenantById tenants (u.tenant_id.getD 0) with
    | none => ResolveOutcome.failed 403 "Tenant not found"
    | some t =>
      if t.is_active then
        ResolveOutcome.resolved (u.tenant_schema.getD "")
      else
        ResolveOutcome.failed 403 "Tenant account is deactivated. Please contact support."

/-- Modelled from the spec: section 4.4's per-request state machine.
Terminal states only; `TenantActive` carries the claimed namespace that
the machine activates on the way to `Resolved`. -/
inductive ResolverState where
  | RootActive
  | TenantActive (ns : String)
  | TenantNotFound
  | TenantSuspended
  | MalformedContext
deriving DecidableEq, Repr

/-- Modelled from the spec: the transition function of 4.4. A
platform-administrator claim goes to `RootActive`; a claim carrying both
tenant identity and namespace name is validated by looking the
TenantRecord up by identity; a claim carrying one but not the other is
`MalformedContext`, never guessed or defaulted. -/
def specResolverState (tenants : List TenantRecord) (u : Claim) : ResolverState :=
  if u.role == "Super Admin" then
    ResolverState.RootActive
  else
    match u.tenant_id, u.tenant_schema with
    | some tid, some ns =>
      match findTenantById tenants tid with
      | none => ResolverState.TenantNotFound
      | some t =>
        if t.is_active then ResolverState.TenantActive ns
        else ResolverState.TenantSuspended
    | _, _ => ResolverState.MalformedContext

/-- How each terminal state of the 4.4 machine surfaces over HTTP in the
middleware's catch block. -/
def renderState : ResolverState → ResolveOutcome
  | ResolverState.RootActive => ResolveOutcome.resolved "public"
  | ResolverState.TenantActive ns => ResolveOutcome.resolved ns
  | ResolverState.TenantNotFound => ResolveOutcome.failed 403 "Tenant not found"
  | ResolverState.TenantSuspended =>
      ResolveOutcome.failed 403 "Tenant account is deactivated. Please contact support."
  | ResolverState.MalformedContext =>
      ResolveOutcome.failed 401 "Tenant information missing in authentication token"

/-- The status code of a failed resolution, `none` on success. -/
def failStatus : ResolveOutcome → Option Nat
  | ResolveOutcome.resolved _ => none
  | ResolveOutcome.failed st _ => some st

/-- A request pipeline stage: the business handler runs against the
activated schema only when the resolver called `next()`; a failed
resolution short-circuits with the error response and the handler (the
request's data access) is never invoked. -/
def runRequest {α : Type} (tenants : List TenantRecord) (u : Claim)
    (handler : String → α) : Except (Nat × String) α :=
  match tenantResolver tenants u with
  | ResolveOutcome.resolved s => Except.ok (handler s)
  | ResolveOutcome.failed st m => Except.error (st, m)

/-! ## Tenant lifecycle (tenant.service.js + tenant.repository.js)

`deactivateTenant(id)`: `findById`; `NotFoundError` when absent; a no-op
when already inactive; otherwise `UPDATE public.tenants SET is_active =
false WHERE id = :id`. -/

/-- Service-level errors that the claims observe. -/
inductive SvcErr where
  | notFound (msg : String)
  | conflict (msg : String)
  | internal (msg : String)
deriving DecidableEq, Repr

/-- `TenantService.deactivateTenant`, modulo the response DTO: the new
committed state of `public.tenants` on success. -/
def deactivateTenant (tenants : List TenantRecord) (tid : Nat) :
    Except SvcErr (List TenantRecord) :=
  match findTenantById tenants tid with
  | none => Except.error (SvcErr.notFound "Tenant not found")
  | some t =>
    if !t.is_active then Except.ok tenants
    else Except.ok (tenants.map (fun r =>
      if r.id == tid then { r with is_active := false } else r))

/-! ## Onboarding (TenantService.createTenant)

The code path, `tenant.service.js` lines 24-90:
1. build a temporary schema name from the display name and `Date.now()`;
2. reject with `ConflictError` when a committed row already has it;
3. INSERT the TenantRecord inside the transaction with
   `schema_name: tempSchemaName, is_active: true` — the serial id is
   consumed even when the transaction later rolls back;
4. UPDATE the pending row's `schema_name` to `tenant_<id>`;
5. `createSchema` (DDL, outside the transaction);
6. `runTenantMigration(schemaName, 'up')` (outside the transaction);
7. `createAdminUser` (INSERT inside the transaction);
8. commit; on any failure the transaction is rolled back, so the pending
   tenant row and admin row vanish while the DDL effects remain.
`FailureSpec` injects a storage failure at each step after the insert. -/

/-- JavaScript `name.toLowerCase().replace(/[^a-z0-9]/g, '_')` (ASCII). -/
def sanitizeName (name : String) : String :=
  String.map (fun c => if c.isLower || c.isDigit then c else '_') name.toLower

/-- The temporary placeholder schema name of step 1:
`'tenant_' + sanitized + '_' + Date.now()`. -/
def tempSchemaName (name : String) (now : Nat) : String :=
  "tenant_" ++ sanitizeName name ++ "_" ++ natToDec now

/-- `generateSchemaName` from `utils/schemaManager.js`: the final,
identity-derived namespace name `tenant_<tenantId>`. -/
def generateSchemaName (tenantId : Nat) : String :=
  "tenant_" ++ natToDec tenantId

/-- The tenant row as INSERTed by step 3 of `createTenant`: temporary
placeholder schema name and `is_active: true` (tenant.service.js lines
38-44). -/
def insertedTenantRow (name : String) (now tid : Nat) : TenantRecord :=
  ⟨tid, name, tempSchemaName name now, true⟩

/-- An admin row INSERTed into `"<schema>".users` by `createAdminUser`. -/
structure AdminRow where
  schema : String
  email : String
deriving DecidableEq, Repr

/-- Committed storage state visible to onboarding: the `public.tenants`
rows, the tenants-id sequence (sequences are not rolled back), the set of
created schemas (DDL is not transactional), and the committed tenant-admin
rows. -/
structure RootDB where
  tenants : List TenantRecord
  nextId : Nat
  schemas : List String
  admins : List AdminRow
deriving DecidableEq, Repr

/-- Which post-insert step of `createTenant` the storage layer fails at. -/
structure FailureSpec where
  failUpdate : Bool
  failCreateSchema : Bool
  failMigration : Bool
  failAdmin : Bool
deriving DecidableEq, Repr

/-- The run with no injected storage failure. -/
def noFailure : FailureSpec := ⟨false, false, false, false⟩

/-- `TenantService.createTenant` over the committed state. The first
component is the service result (the returned tenant on success), the
second the committed state afterwards. The cleanup branch
(`DROP SCHEMA IF EXISTS error.schemaName`) never fires because no thrown
error carries a `schemaName` property, so a schema created before a later
failure remains, exactly as in the code. -/
def createTenant (db : RootDB) (name adminEmail : String) (now : Nat)
    (f : FailureSpec) : Except SvcErr TenantRecord × RootDB :=
  if db.tenants.any (fun t => t.schema_name == tempSchemaName name now) then
    (Except.error (SvcErr.conflict "A tenant with similar name already exists"), db)
  else
    let tid := db.nextId
    let db1 : RootDB := { db with nextId := tid + 1 }
    let pending := insertedTenantRow name now tid
    let fin := generateSchemaName tid
    if f.failUpdate then
      (Except.error (SvcErr.internal "Failed to create tenant"), db1)
    else
      let pending2 : TenantRecord := { pending with schema_name := fin }
      if f.failCreateSchema then
        (Except.error (SvcErr.internal "Failed to create tenant"), db1)
      else
        let db2 : RootDB :=
          { db1 with schemas := if db1.schemas.contains fin then db1.schemas
                                else db1.schemas ++ [fin] }
        if f.failMigration then
          (Except.error (SvcErr.internal "Failed to create tenant"), db2)
        else if f.failAdmin then
          (Except.error (SvcErr.internal "Failed to create tenant"), db2)
        else
          (Except.ok pending2,
            { db2 with tenants := db2.tenants ++ [pending2],
                       admins := db2.admins ++ [⟨fin, adminEmail⟩] })

/-- Committed rows never use a namespace name derived from an identity
the sequence has not assigned yet. This holds of every state the system
reaches, since each committed row's name is `tenant_<its id>` with its id
drawn from the sequence. -/
def freshNames (db : RootDB) : Prop :=
  ∀ t ∈ db.tenants, ∀ n : Nat, db.nextId ≤ n → t.schema_name ≠ generateSchemaName n

/-! ## Structural provisioning (schemaManager.createSchema + umzug-tenant.js)

`createSchema` issues `CREATE SCHEMA IF NOT EXISTS "<name>"` — a second
run on an existing schema is a no-op, not an error. `runTenantMigration`
builds an Umzug runner whose `SequelizeStorage` records executed
migration names in `"<schema>".migrations`; `umzug.up()` executes, in
glob order, exactly the migrations not yet recorded, and each migration's
`createTable` fails if its table already exists. -/

/-- The tenant-schema migration files, in the runner's glob order. -/
def tenantMigrationNames : List String :=
  ["001-create-users-table", "002-create-projects-table",
   "003-create-units-table", "004-create-audit-logs-table"]

/-- The table each tenant migration creates inside the namespace. -/
def migrationTable (migration : String) : String :=
  if migration == "001-create-users-table" then "users"
  else if migration == "002-create-projects-table" then "projects"
  else if migration == "003-create-units-table" then "units"
  else "audit_logs"

/-- Structural state of one namespace: whether the schema container
exists, the tables materialised in it, and the migration names recorded
in its `migrations` storage table. -/
structure NamespaceState where
  created : Bool
  tables : List String
  applied : List String
deriving DecidableEq, Repr

/-- A never-provisioned namespace. -/
def emptyNamespace : NamespaceState := ⟨false, [], []⟩

/-- `createSchema`: `CREATE SCHEMA IF NOT EXISTS` on the namespace. -/
def createSchemaStep (s : NamespaceState) : NamespaceState :=
  { s with created := true }

/-- One migration's `up`: `createTable` errors when the table already
exists (no `IF NOT EXISTS` in the migration bodies); on success Umzug's
storage records the migration name. -/
def execMigration (s : NamespaceState) (migration : String) :
    Except String NamespaceState :=
  if s.tables.contains (migrationTable migration) then
    Except.error ("relation already exists: " ++ migrationTable migration)
  else
    Except.ok { s with tables := s.tables ++ [migrationTable migration],
                       applied := s.applied ++ [migration] }

/-- One Umzug step: skip a migration already recorded in the storage
table, otherwise execute it. -/
def upStep (st : NamespaceState) (migration : String) :
    Except String NamespaceState :=
  if st.applied.contains migration then Except.ok st
  else execMigration st migration

/-- Sequential execution of a migration list, stopping at the first
error, as Umzug executes its pending list. -/
def upRun (s : NamespaceState) : List String → Except String NamespaceState
  | [] => Except.ok s
  | migration :: rest =>
    match upStep s migration with
    | Except.ok s1 => upRun s1 rest
    | Except.error e => Except.error e

/-- `umzug.up()`: run every migration not yet recorded, in order,
skipping the recorded ones. -/
def runTenantMigrationUp (s : NamespaceState) : Except String NamespaceState :=
  upRun s tenantMigrationNames

/-- Structural provisioning of one namespace as onboarding performs it:
`createSchema` followed by `runTenantMigration(schema, 'up')`. -/
def provisionNamespace (s : NamespaceState) : Except String NamespaceState :=
  runTenantMigrationUp (createSchemaStep s)

/-! ## Users, cross-namespace lookup, tenant login
(user.repository.js + user.service.js)

The per-schema queries can fail at the storage layer; `UserDB` injects
such failures by naming the schemas whose `users` query errors
(`failSchemas`) and whether the `public.tenants` enumeration errors
(`failTenantEnum`). `findByEmail` catches its query error and returns
null; `findByEmailAcrossTenants` catches enumeration errors and returns
null. -/

/-- A row of some `"<schema>".users` table. -/
structure TenantUser where
  name : String
  email : String
  password_hash : String
  role : String
  is_active : Bool
deriving DecidableEq, Repr

/-- Storage state for the login path, with injected query failures. -/
structure UserDB where
  tenants : List TenantRecord
  userRows : List (String × List TenantUser)
  failSchemas : List String
  failTenantEnum : Bool
deriving DecidableEq, Repr

/-- The rows of `"<schema>".users`; a schema with no entry has none. -/
def schemaRows (db : UserDB) (schemaName : String) : List TenantUser :=
  match db.userRows.find? (fun p => p.1 == schemaName) with
  | some p => p.2
  | none => []

/-- `UserRepository.findByEmail(email, schemaName)`: first matching row;
any query error is caught and absorbed into `null`. -/
def findByEmail (db : UserDB) (email schemaName : String) : Option TenantUser :=
  if db.failSchemas.contains schemaName then none
  else (schemaRows db schemaName).find? (fun u => u.email == email)

/-- The scan loop of `findByEmailAcrossTenants`: one scoped lookup per
enumerated tenant, returning on the first match. -/
def scanTenants (db : UserDB) (email : String) :
    List TenantRecord → Option (TenantUser × String × Nat)
  | [] => none
  | t :: rest =>
    match findByEmail db email t.schema_name with
    | some u => some (u, t.schema_name, t.id)
    | none => scanTenants db email rest

/-- `UserRepository.findByEmailAcrossTenants(email)`: enumerate
`public.tenants WHERE is_active = true`, then scan; an enumeration error
is caught and absorbed into `null`. -/
def findByEmailAcrossTenants (db : UserDB) (email : String) :
    Option (TenantUser × String × Nat) :=
  if db.failTenantEnum then none
  else scanTenants db email (db.tenants.filter (fun t => t.is_active))

/-- Modelled from the spec: the credential-hashing collaborator of
section 6, an opaque injective `hash` with `verify(plain, h) = (hash
plain == h)` — bcrypt is outside this repository. -/
def hashPassword (plain : String) : String :=
  "bcrypt$" ++ plain

/-- `UserRepository.verifyPassword` via the hashing collaborator. -/
def verifyPassword (plain hashed : String) : Bool :=
  hashPassword plain == hashed

/-- Login failures observable from `tenantUserLogin`. -/
inductive LoginErr where
  | unauthorized (msg : String)
  | forbidden (msg : String)
deriving DecidableEq, Repr

/-- `UserService.tenantUserLogin`: look the email up across active
tenants; absent result, then a failed password check, each yield the
same generic `UnauthorizedError('Invalid credentials')`; a found,
password-verified but deactivated user yields
`ForbiddenError('Account is deactivated')`; otherwise the principal and
its namespace are returned (the signed token is out of scope). -/
def tenantUserLogin (db : UserDB) (email password : String) :
    Except LoginErr (TenantUser × String × Nat) :=
  match findByEmailAcrossTenants db email with
  | none => Except.error (LoginErr.unauthorized "Invalid credentials")
  | some (u, schemaName, tid) =>
    if !(verifyPassword password u.password_hash) then
      Except.error (LoginErr.unauthorized "Invalid credentials")
    else if !u.is_active then
      Except.error (LoginErr.forbidden "Account is deactivated")
    else
      Except.ok (u, schemaName, tid)

/-! ## Shared-pool concurrency model (config/db.js + the repositories)

`db.js` creates one Sequelize instance with a shared pool
(`pool: { max: 5 ... }`). A `sequelize.query(...)` outside a transaction
checks any free pooled connection out for that single statement and
releases it afterwards. The tenant resolver's
`SET search_path TO "<ns>", public;` mutates *session* state of
whichever connection ran it, and nothing resets that state when the
request ends. The repository data statements, by contrast, all
interpolate their target schema into the SQL text —
`"<schema>".users/projects/units/audit_logs` in the user, project, unit
and audit-log repositories, `public.tenants` in the resolver and the
tenant repository — so every read and write carries its namespace and no
data access resolves a table through the session search_path (the
schema-less models of `models/index.js` are required by no module).
Concurrent requests are interleavings of per-statement steps against the
shared connections. -/

/-- One pooled statement issued by a request: the resolver's session
`SET search_path`, or a repository read or write whose SQL names its
schema explicitly. -/
inductive PoolOp where
  | setPath (ns : String)
  | readData (ns : String)
  | writeData (ns : String) (entity : String)
deriving DecidableEq, Repr

/-- A live request: the namespace it was resolved into, its remaining
pool statements, the entities its reads returned, and the session
search_path that was in force on its connection at each statement it has
executed — what `SHOW search_path` would have reported there. -/
structure ReqState where
  ns : String
  ops : List PoolOp
  seen : List String
  sessionPaths : List String
deriving DecidableEq, Repr

/-- The whole system: per-connection session search_path of the shared
pool, the concurrent requests, and the per-namespace stored entities. -/
structure SysState where
  conns : List String
  reqs : List ReqState
  stored : List (String × List String)
deriving DecidableEq, Repr

/-- The entities present in one namespace. -/
def storedIn : List (String × List String) → String → List String
  | [], _ => []
  | p :: rest, ns => if p.1 == ns then p.2 else storedIn rest ns

/-- Append an entity to one namespace's store, as a schema-qualified
`INSERT INTO "<ns>".<table>` does. -/
def storeAdd : List (String × List String) → String → String → List (String × List String)
  | [], ns, e => [(ns, [e])]
  | p :: rest, ns, e =>
    if p.1 == ns then (p.1, p.2 ++ [e]) :: rest
    else p :: storeAdd rest ns e

/-- Execute request `r`'s next pooled statement on connection `c`:
`setPath` overwrites that connection's session search_path; `readData`
and `writeData` act on the namespace written into their SQL, whatever
the connection's session search_path is, while the session value in
force during the statement is recorded. -/
def poolStep (s : SysState) (r c : Nat) : SysState :=
  match s.reqs[r]? with
  | none => s
  | some rq =>
    match rq.ops with
    | [] => s
    | op :: rest =>
      let path := (s.conns[c]?).getD "public"
      match op with
      | PoolOp.setPath ns =>
        let rq2 : ReqState := { rq with ops := rest,
                                        sessionPaths := rq.sessionPaths ++ [ns] }
        { s with conns := s.conns.set c ns, reqs := s.reqs.set r rq2 }
      | PoolOp.readData ns =>
        let rq2 : ReqState := { rq with ops := rest,
                                        seen := rq.seen ++ storedIn s.stored ns,
                                        sessionPaths := rq.sessionPaths ++ [path] }
        { s with reqs := s.reqs.set r rq2 }
      | PoolOp.writeData ns e =>
        let rq2 : ReqState := { rq with ops := rest,
                                        sessionPaths := rq.sessionPaths ++ [path] }
        { s with reqs := s.reqs.set r rq2, stored := storeAdd s.stored ns e }

/-- Run a schedule: the (request index, pooled connection index) choices
made by the pool and the event loop, one statement at a time. -/
def runSchedule (s : SysState) : List (Nat × Nat) → SysState
  | [] => s
  | rc :: rest => runSchedule (poolStep s rc.1 rc.2) rest

/-- The pooled statements a request performs once the tenant resolver
has resolved it: the `SET search_path` activation, then a repository
query qualified with the resolved schema — the controllers pass
`req.tenantSchema`, which the resolver just set, to the repositories,
which interpolate it. Nothing at all when resolution failed. -/
def requestScript (tenants : List TenantRecord) (u : Claim) : Option ReqState :=
  match tenantResolver tenants u with
  | ResolveOutcome.resolved ns =>
    some ⟨ns, [PoolOp.setPath ns, PoolOp.readData ns], [], []⟩
  | ResolveOutcome.failed _ _ => none

/-- Whether one statement's SQL names the request's own resolved
schema. -/
def opQualifiedB (nsr : String) : PoolOp → Bool
  | PoolOp.setPath _ => true
  | PoolOp.readData ns => ns == nsr
  | PoolOp.writeData ns _ => ns == nsr

/-- Every remaining repository statement of the request is qualified
with the request's own resolved namespace, as the source guarantees:
repositories receive `req.tenantSchema` and interpolate it. -/
@[reducible] def selfQualified (rq : ReqState) : Prop :=
  ∀ op ∈ rq.ops, opQualifiedB rq.ns op = true

/-- Everything the request has read so far lies in its own resolved
namespace's store. -/
@[reducible] def Isolated (stored : List (String × List String)) (rq : ReqState) : Prop :=
  ∀ x ∈ rq.seen, x ∈ storedIn stored rq.ns

/-- Every live request is self-qualified and isolated. -/
@[reducible] def SysOk (s : SysState) : Prop :=
  ∀ rq ∈ s.reqs, selfQualified rq ∧ Isolated s.stored rq

/-! ## Claim C1: activation on the shared pool vs qualified data access -/

/-- Registry with two active tenants used by the concurrency scenario. -/
def c1Registry : List TenantRecord :=
  [⟨1, "Acme", "tenant_1", true⟩, ⟨2, "Beta", "tenant_2", true⟩]

/-- A valid claim for tenant 1. -/
def c1ClaimAcme : Claim := ⟨"Builder", some 1, some "tenant_1"⟩

/-- A valid claim for tenant 2. -/
def c1ClaimBeta : Claim := ⟨"Builder", some 2, some "tenant_2"⟩

/-- Per-namespace stored entities: `beta_secret` exists exclusively in
tenant 2's namespace. -/
def c1Stored : List (String × List String) :=
  [("tenant_1", ["acme_unit"]), ("tenant_2", ["beta_secret"])]

/-- The statements of a request resolved into `tenant_1`. -/
def c1ScriptAcme : ReqState :=
  ⟨"tenant_1", [PoolOp.setPath "tenant_1", PoolOp.readData "tenant_1"], [], []⟩

/-- The statements of a request resolved into `tenant_2`. -/
def c1ScriptBeta : ReqState :=
  ⟨"tenant_2", [PoolOp.setPath "tenant_2", PoolOp.readData "tenant_2"], [], []⟩

/-- Both requests resolved, sharing one pooled connection. -/
def c1InitOne : SysState := ⟨["public"], [c1ScriptAcme, c1ScriptBeta], c1Stored⟩

/-- Both requests resolved, two pooled connections available. -/
def c1InitTwo : SysState := ⟨["public", "public"], [c1ScriptAcme, c1ScriptBeta], c1Stored⟩

/-- A second `tenant_1` request performing a repository INSERT. -/
def c1WriterScript : ReqState :=
  ⟨"tenant_1", [PoolOp.writeData "tenant_1" "new_unit"], [], []⟩

/-- The reader request alongside the writer request. -/
def c1InitWrite : SysState := ⟨["public"], [c1ScriptAcme, c1WriterScript], c1Stored⟩

/-! ## Claim C9: distinguishability of the resolver's terminal failures -/

/-- Registry for the C9 scenario: one active, one suspended tenant. -/
def c9Registry : List TenantRecord :=
  [⟨1, "Acme", "tenant_1", true⟩, ⟨2, "Beta", "tenant_2", false⟩]

/-- A claim naming a tenant id that does not exist. -/
def c9ClaimNotFound : Claim := ⟨"Builder", some 99, some "tenant_99"⟩

/-- A claim for the suspended tenant. -/
def c9ClaimSuspended : Claim := ⟨"Builder", some 2, some "tenant_2"⟩

/-- A claim with the namespace name missing. -/
def c9ClaimMalformed : Claim := ⟨"Builder", some 1, none⟩

/-! ## Claim C3: what the resolver actually re-validates -/

/-- Registry for the C3 scenario: tenant 1 active, tenant 2 suspended. -/
def c3Registry : List TenantRecord :=
  [⟨1, "Acme", "tenant_1", true⟩, ⟨2, "Beta", "tenant_2", false⟩]

/-- A claim pairing the active tenant 1's identity with suspended
tenant 2's namespace name. -/
def c3MismatchedClaim : Claim := ⟨"Builder", some 1, some "tenant_2"⟩

/-! ## Claim C6: cross-namespace lookup scans active tenants only -/

/-- Whenever the cross-namespace lookup returns a principal, the
returned namespace and tenant id belong to an active TenantRecord. -/
def resultSchemaActive (db : UserDB) (email : String) : Bool :=
  match findByEmailAcrossTenants db email with
  | none => true
  | some (_, s, tid) =>
    db.tenants.any (fun t => t.id == tid && t.schema_name == s && t.is_active)

/-! ## Claim C10: login failures and error absorption -/

/-- Does a login attempt surface the generic
`UnauthorizedError('Invalid credentials')`? -/
def isInvalidCred : Except LoginErr (TenantUser × String × Nat) → Bool
  | Except.error (LoginErr.unauthorized m) => m == "Invalid credentials"
  | _ => false

/-- Does a login attempt surface
`ForbiddenError('Account is deactivated')`? -/
def isAccountDeactivated : Except LoginErr (TenantUser × String × Nat) → Bool
  | Except.error (LoginErr.forbidden m) => m == "Account is deactivated"
  | _ => false

/-- The cross-namespace lookup found a principal whose stored credential
does not verify against the presented password. -/
def foundWrongPw (db : UserDB) (email pw : String) : Bool :=
  match findByEmailAcrossTenants db email with
  | some (u, _, _) => !(verifyPassword pw u.password_hash)
  | none => false

/-- The cross-namespace lookup found a deactivated principal whose
credential verifies. -/
def foundDeactivatedGoodPw (db : UserDB) (email pw : String) : Bool :=
  match findByEmailAcrossTenants db email with
  | some (u, _, _) => verifyPassword pw u.password_hash && !u.is_active
  | none => false

/-- The principal used by the C10 scenario, living in tenant 2. -/
def c10User : TenantUser := ⟨"Bob", "bob@x.test", hashPassword "pw", "Sales", true⟩

/-- Two active tenants; the `tenant_1` users query fails at the storage
layer; Bob exists in `tenant_2`. -/
def c10Db : UserDB :=
  ⟨[⟨1, "Acme", "tenant_1", true⟩, ⟨2, "Beta", "tenant_2", true⟩],
   [("tenant_2", [c10User])], ["tenant_1"], false⟩

/-! ## Theorems -/

/-- The fuel argument of `decChars` is irrelevant once it exceeds `n`. -/
theorem decChars_fuel_eq (n : Nat) : ∀ f g : Nat, n < f → n < g →
    decChars f n = decChars g n := by
  induction n using Nat.strong_induction_on with
  | _ n ih =>
    intro f g hf hg
    match f, g with
    | f' + 1, g' + 1 =>
      by_cases h10 : n < 10
      · simp [decChars, h10]
      · have hdiv : n / 10 < n := Nat.div_lt_self (by omega) (by omega)
        have hf' : n / 10 < f' := by omega
        have hg' : n / 10 < g' := by omega
        simp only [decChars, h10, if_false]
        rw [ih (n / 10) hdiv f' g' hf' hg']

/-- `decChars` never returns an empty list when the fuel suffices. -/
theorem decChars_ne_nil (f n : Nat) (h : n < f) : decChars f n ≠ [] := by
  match f with
  | f' + 1 =>
    by_cases h10 : n < 10
    · simp [decChars, h10]
    · simp [decChars, h10]

/-- `Nat.digitChar` is injective below 10. -/
theorem digitChar_inj_below : ∀ a : Nat, a < 10 → ∀ b : Nat, b < 10 →
    Nat.digitChar a = Nat.digitChar b → a = b := by
  decide

/-- The decimal printer is injective: distinct ids render distinctly. -/
theorem natToDec_injective : ∀ m n : Nat, natToDec m = natToDec n → m = n := by
  intro m
  induction m using Nat.strong_induction_on with
  | _ m ih =>
    intro n h
    have hdata : decChars (m + 1) m = decChars (n + 1) n := by
      have := congrArg String.data h
      simpa [natToDec] using this
    by_cases hm : m < 10 <;> by_cases hn : n < 10
    · simp only [decChars, hm, hn, if_true] at hdata
      exact digitChar_inj_below m hm n hn (List.head_eq_of_cons_eq hdata)
    · exfalso
      have hdivn : n / 10 < n := Nat.div_lt_self (by omega) (by omega)
      simp only [decChars, hm, hn, if_true, if_false] at hdata
      have hne := decChars_ne_nil n (n / 10) (by omega)
      have hlen := congrArg List.length hdata
      simp [List.length_append] at hlen
      cases hcd : decChars n (n / 10) with
      | nil => exact hne hcd
      | cons c cs => rw [hcd] at hlen; simp at hlen
    · exfalso
      have hdivm : m / 10 < m := Nat.div_lt_self (by omega) (by omega)
      simp only [decChars, hm, hn, if_true, if_false] at hdata
      have hne := decChars_ne_nil m (m / 10) (by omega)
      have hlen := congrArg List.length hdata
      simp [List.length_append] at hlen
      cases hcd : decChars m (m / 10) with
      | nil => exact hne hcd
      | cons c cs => rw [hcd] at hlen; simp at hlen
    · have hdivm : m / 10 < m := Nat.div_lt_self (by omega) (by omega)
      have hdivn : n / 10 < n := Nat.div_lt_self (by omega) (by omega)
      simp only [decChars, hm, hn, if_false] at hdata
      have hrev := congrArg List.reverse hdata
      simp only [List.reverse_append, List.reverse_cons, List.reverse_nil,
        List.nil_append, List.cons_append] at hrev
      have hhead : Nat.digitChar (m % 10) = Nat.digitChar (n % 10) :=
        List.head_eq_of_cons_eq hrev
      have htail : (decChars m (m / 10)).reverse = (decChars n (n / 10)).reverse :=
        List.tail_eq_of_cons_eq hrev
      have htails : decChars m (m / 10) = decChars n (n / 10) :=
        List.reverse_injective htail
      have hmod : m % 10 = n % 10 :=
        digitChar_inj_below (m % 10) (Nat.mod_lt _ (by omega)) (n % 10)
          (Nat.mod_lt _ (by omega)) hhead
      have hcanon : decChars (m / 10 + 1) (m / 10) = decChars (n / 10 + 1) (n / 10) := by
        calc decChars (m / 10 + 1) (m / 10)
            = decChars m (m / 10) := decChars_fuel_eq _ _ _ (by omega) (by omega)
          _ = decChars n (n / 10) := htails
          _ = decChars (n / 10 + 1) (n / 10) := decChars_fuel_eq _ _ _ (by omega) (by omega)
      have hdiv : m / 10 = n / 10 :=
        ih (m / 10) hdivm (n / 10) (by simpa [natToDec] using congrArg String.mk hcanon)
      omega

/-- Identity-derived namespace names are a pure, injective function of
the store-assigned identity. -/
theorem generateSchemaName_injective : ∀ a b : Nat,
    generateSchemaName a = generateSchemaName b → a = b := by
  intro a b h
  have hdata := congrArg String.data h
  simp only [generateSchemaName] at hdata
  rw [String.data_append, String.data_append] at hdata
  have : (natToDec a).data = (natToDec b).data := List.append_cancel_left hdata
  exact natToDec_injective a b (by
    cases hna : natToDec a with
    | mk la =>
      cases hnb : natToDec b with
      | mk lb =>
        rw [hna, hnb] at this
        simp only at this
        rw [this])

/-- A schema-qualified INSERT leaves its entity visible in its own
namespace. -/
theorem storedIn_storeAdd_self (stored : List (String × List String))
    (ns e : String) :
    storedIn (storeAdd stored ns e) ns = storedIn stored ns ++ [e] := by
  induction stored with
  | nil => simp [storeAdd, storedIn]
  | cons p rest ih =>
    by_cases hp : p.1 == ns
    · simp [storeAdd, storedIn, hp]
    · simp [storeAdd, storedIn, hp, ih]

/-- A schema-qualified INSERT touches no other namespace. -/
theorem storedIn_storeAdd_ne (stored : List (String × List String))
    (ns ns2 e : String) (h : ns2 ≠ ns) :
    storedIn (storeAdd stored ns e) ns2 = storedIn stored ns2 := by
  induction stored with
  | nil =>
    have : (ns == ns2) = false := by
      simpa using fun hc => h hc.symm
    simp [storeAdd, storedIn, this]
  | cons p rest ih =>
    by_cases hp : p.1 == ns
    · have hpn : p.1 = ns := by simpa using hp
      have : (p.1 == ns2) = false := by
        simpa [hpn] using fun hc => h hc.symm
      simp [storeAdd, storedIn, hp, this]
    · simp [storeAdd, storedIn, hp, ih]

/-- Stores only grow along a pooled statement: nothing is deleted. -/
theorem mem_storedIn_storeAdd (stored : List (String × List String))
    (ns ns2 e x : String) (h : x ∈ storedIn stored ns2) :
    x ∈ storedIn (storeAdd stored ns e) ns2 := by
  by_cases heq : ns2 = ns
  · subst heq
    rw [storedIn_storeAdd_self]
    exact List.mem_append_left _ h
  · rw [storedIn_storeAdd_ne stored ns ns2 e heq]
    exact h

/-- One pooled statement preserves the system invariant, only grows the
stores, preserves every request's resolved namespace, and leaves every
namespace no live request is resolved into untouched. -/
theorem poolStep_inv (s : SysState) (i c : Nat) (h : SysOk s) :
    SysOk (poolStep s i c)
    ∧ (∀ ns x, x ∈ storedIn s.stored ns → x ∈ storedIn (poolStep s i c).stored ns)
    ∧ (∀ j : Nat, ((poolStep s i c).reqs[j]?).map ReqState.ns =
        (s.reqs[j]?).map ReqState.ns)
    ∧ (∀ rq2 ∈ (poolStep s i c).reqs, ∃ rq ∈ s.reqs, rq2.ns = rq.ns)
    ∧ (∀ nsB, (∀ rq ∈ s.reqs, rq.ns ≠ nsB) →
        storedIn (poolStep s i c).stored nsB = storedIn s.stored nsB) := by
  cases hg : s.reqs[i]? with
  | none =>
    have hstep : poolStep s i c = s := by
      unfold poolStep
      rw [hg]
    rw [hstep]
    exact ⟨h, fun ns x hx => hx, fun j => rfl,
      fun rq2 h2 => ⟨rq2, h2, rfl⟩, fun nsB _ => rfl⟩
  | some rq =>
    have hrqmem : rq ∈ s.reqs := by
      have := List.get?_mem (l := s.reqs) (n := i) (a := rq)
      rw [List.get?_eq_getElem?] at this
      exact this hg
    have hilt : i < s.reqs.length := (List.getElem?_eq_some.mp hg).1
    obtain ⟨hq, hiso⟩ := h rq hrqmem
    cases hops : rq.ops with
    | nil =>
      have hstep : poolStep s i c = s := by
        unfold poolStep
        simp only [hg]
        rw [hops]
      rw [hstep]
      exact ⟨h, fun ns x hx => hx, fun j => rfl,
        fun rq2 h2 => ⟨rq2, h2, rfl⟩, fun nsB _ => rfl⟩
    | cons op rest =>
      have htail : ∀ op2 ∈ rest, opQualifiedB rq.ns op2 = true := by
        intro op2 h2
        exact hq op2 (by rw [hops]; exact List.mem_cons_of_mem _ h2)
      have hhead : opQualifiedB rq.ns op = true :=
        hq op (by rw [hops]; exact List.mem_cons_self _ _)
      cases op with
      | setPath ns2 =>
        have hstep : poolStep s i c =
            { s with conns := s.conns.set c ns2,
                     reqs := s.reqs.set i
                       { rq with ops := rest,
                                 sessionPaths := rq.sessionPaths ++ [ns2] } } := by
          unfold poolStep
          simp only [hg]
          rw [hops]
        rw [hstep]
        refine ⟨?_, fun ns x hx => hx, ?_, ?_, fun nsB _ => rfl⟩
        · intro rq2 h2
          cases List.mem_or_eq_of_mem_set h2 with
          | inl hold => exact h rq2 hold
          | inr hnew =>
            subst hnew
            exact ⟨fun op2 h2 => htail op2 h2, fun x hx => hiso x hx⟩
        · intro j
          by_cases hji : j = i
          · subst hji
            rw [List.getElem?_set_self hilt, hg]
            rfl
          · rw [List.getElem?_set_ne (fun hc => hji hc.symm)]
        · intro rq2 h2
          cases List.mem_or_eq_of_mem_set h2 with
          | inl hold => exact ⟨rq2, hold, rfl⟩
          | inr hnew => exact ⟨rq, hrqmem, by rw [hnew]⟩
      | readData ns2 =>
        have hns2 : ns2 = rq.ns := by simpa [opQualifiedB] using hhead
        have hstep : poolStep s i c =
            { s with reqs := s.reqs.set i
                       { rq with ops := rest,
                                 seen := rq.seen ++ storedIn s.stored ns2,
                                 sessionPaths := rq.sessionPaths ++
                                   [(s.conns[c]?).getD "public"] } } := by
          unfold poolStep
          simp only [hg]
          rw [hops]
        rw [hstep]
        refine ⟨?_, fun ns x hx => hx, ?_, ?_, fun nsB _ => rfl⟩
        · intro rq2 h2
          cases List.mem_or_eq_of_mem_set h2 with
          | inl hold => exact h rq2 hold
          | inr hnew =>
            subst hnew
            refine ⟨fun op2 h2 => htail op2 h2, fun x hx => ?_⟩
            cases List.mem_append.mp hx with
            | inl hseen => exact hiso x hseen
            | inr hread => rw [hns2] at hread; exact hread
        · intro j
          by_cases hji : j = i
          · subst hji
            rw [List.getElem?_set_self hilt, hg]
            rfl
          · rw [List.getElem?_set_ne (fun hc => hji hc.symm)]
        · intro rq2 h2
          cases List.mem_or_eq_of_mem_set h2 with
          | inl hold => exact ⟨rq2, hold, rfl⟩
          | inr hnew => exact ⟨rq, hrqmem, by rw [hnew]⟩
      | writeData ns2 e =>
        have hns2 : ns2 = rq.ns := by simpa [opQualifiedB] using hhead
        have hstep : poolStep s i c =
            { s with reqs := s.reqs.set i
                       { rq with ops := rest,
                                 sessionPaths := rq.sessionPaths ++
                                   [(s.conns[c]?).getD "public"] },
                     stored := storeAdd s.stored ns2 e } := by
          unfold poolStep
          simp only [hg]
          rw [hops]
        rw [hstep]
        refine ⟨?_, ?_, ?_, ?_, ?_⟩
        · intro rq2 h2
          cases List.mem_or_eq_of_mem_set h2 with
          | inl hold =>
            obtain ⟨hq2, hiso2⟩ := h rq2 hold
            exact ⟨hq2, fun x hx =>
              mem_storedIn_storeAdd s.stored ns2 rq2.ns e x (hiso2 x hx)⟩
          | inr hnew =>
            subst hnew
            exact ⟨fun op2 h2 => htail op2 h2, fun x hx =>
              mem_storedIn_storeAdd s.stored ns2 rq.ns e x (hiso x hx)⟩
        · intro ns x hx
          exact mem_storedIn_storeAdd s.stored ns2 ns e x hx
        · intro j
          by_cases hji : j = i
          · subst hji
            rw [List.getElem?_set_self hilt, hg]
            rfl
          · rw [List.getElem?_set_ne (fun hc => hji hc.symm)]
        · intro rq2 h2
          cases List.mem_or_eq_of_mem_set h2 with
          | inl hold => exact ⟨rq2, hold, rfl⟩
          | inr hnew => exact ⟨rq, hrqmem, by rw [hnew]⟩
        · intro nsB hB
          exact storedIn_storeAdd_ne s.stored ns2 nsB e
            (by rw [hns2]; exact (hB rq hrqmem).symm)

/-- Every interleaving preserves the system invariant, the per-request
resolved namespaces, and the stores of namespaces no request is
resolved into. -/
theorem runSchedule_inv :
    ∀ (sched : List (Nat × Nat)) (s : SysState), SysOk s →
      SysOk (runSchedule s sched)
      ∧ (∀ j : Nat, ((runSchedule s sched).reqs[j]?).map ReqState.ns =
          (s.reqs[j]?).map ReqState.ns)
      ∧ (∀ nsB, (∀ rq ∈ s.reqs, rq.ns ≠ nsB) →
          storedIn (runSchedule s sched).stored nsB = storedIn s.stored nsB) := by
  intro sched
  induction sched with
  | nil => exact fun s h => ⟨h, fun j => rfl, fun nsB _ => rfl⟩
  | cons rc rest ih =>
    intro s h
    obtain ⟨hok1, -, hns1, hmem1, hun1⟩ := poolStep_inv s rc.1 rc.2 h
    obtain ⟨hokr, hnsr, hunr⟩ := ih (poolStep s rc.1 rc.2) hok1
    refine ⟨hokr, ?_, ?_⟩
    · intro j
      calc ((runSchedule (poolStep s rc.1 rc.2) rest).reqs[j]?).map ReqState.ns
          = ((poolStep s rc.1 rc.2).reqs[j]?).map ReqState.ns := hnsr j
        _ = (s.reqs[j]?).map ReqState.ns := hns1 j
    · intro nsB hB
      have hB1 : ∀ rq ∈ (poolStep s rc.1 rc.2).reqs, rq.ns ≠ nsB := by
        intro rq2 h2
        obtain ⟨rq, hrq, hns⟩ := hmem1 rq2 h2
        rw [hns]
        exact hB rq hrq
      calc storedIn (runSchedule (poolStep s rc.1 rc.2) rest).stored nsB
          = storedIn (poolStep s rc.1 rc.2).stored nsB := hunr nsB hB1
        _ = storedIn s.stored nsB := hun1 nsB hB

/-- C1 counterexample: the activation — the per-request
`SET search_path` on the shared connection pool — is *not* scoped to the
request's lifetime and *is* observable by concurrently executing
requests. On one shared connection, after the `tenant_1` request's
activation and the interleaved `tenant_2` request's activation, the
connection's session search_path is `tenant_2` while the `tenant_1`
request is still mid-flight with its read pending: its activation was
overwritten before its request finished. With two pooled connections,
the `tenant_2` request's repository read executes on a connection whose
session search_path is still `tenant_1` — the other request's
activation is the session state its statement runs under — although,
the read being schema-qualified, it still returns only `tenant_2`'s own
entity. -/
theorem c1_activation_session_leak :
    requestScript c1Registry c1ClaimAcme = some c1ScriptAcme
    ∧ requestScript c1Registry c1ClaimBeta = some c1ScriptBeta
    ∧ (runSchedule c1InitOne [(0, 0), (1, 0)]).conns = ["tenant_2"]
    ∧ (runSchedule c1InitOne [(0, 0), (1, 0)]).reqs[0]? =
        some ⟨"tenant_1", [PoolOp.readData "tenant_1"], [], ["tenant_1"]⟩
    ∧ (runSchedule c1InitTwo [(0, 0), (1, 1), (1, 0)]).reqs[1]? =
        some ⟨"tenant_2", [], ["beta_secret"], ["tenant_2", "tenant_1"]⟩
    ∧ storedIn c1Stored "tenant_2" = ["beta_secret"] := by
  decide

/-- C1 as amended: because every repository statement is explicitly
qualified with the request's resolved schema, the data accesses of a
request the resolver resolved into namespace A read only entities of A
— under every interleaving and whatever the shared connections' leaked
session search_path — and the store of any namespace B that no live
request is resolved into is never read from or written to by the others:
a request resolved into A never touches an entity exclusive to B. -/
theorem c1_qualified_access_isolated (ts : List TenantRecord) (u : Claim)
    (r : Nat) (s : SysState) (sched : List (Nat × Nat)) (rq0 rq1 : ReqState)
    (e nsB : String)
    (hscript : requestScript ts u = some rq0)
    (hinit : s.reqs[r]? = some rq0)
    (hok : SysOk s)
    (hB : ∀ rq ∈ s.reqs, rq.ns ≠ nsB)
    (hrun : (runSchedule s sched).reqs[r]? = some rq1)
    (he : e ∈ rq1.seen) :
    tenantResolver ts u = ResolveOutcome.resolved rq0.ns
    ∧ rq1.ns = rq0.ns
    ∧ e ∈ storedIn (runSchedule s sched).stored rq0.ns
    ∧ storedIn (runSchedule s sched).stored nsB = storedIn s.stored nsB := by
  obtain ⟨hokr, hnsr, hunr⟩ := runSchedule_inv sched s hok
  have hres : tenantResolver ts u = ResolveOutcome.resolved rq0.ns := by
    unfold requestScript at hscript
    cases hr : tenantResolver ts u with
    | resolved ns =>
      rw [hr] at hscript
      have : rq0.ns = ns := by
        have := Option.some.inj hscript
        rw [← this]
      rw [this]
    | failed st m =>
      rw [hr] at hscript
      exact absurd hscript (by simp)
  have hns : rq1.ns = rq0.ns := by
    have := hnsr r
    rw [hrun, hinit] at this
    exact Option.some.inj this
  have hmem1 : rq1 ∈ (runSchedule s sched).reqs := by
    have := List.get?_mem (l := (runSchedule s sched).reqs) (n := r) (a := rq1)
    rw [List.get?_eq_getElem?] at this
    exact this hrun
  obtain ⟨-, hiso1⟩ := hokr rq1 hmem1
  refine ⟨hres, hns, ?_, hunr nsB hB⟩
  have := hiso1 e he
  rw [hns] at this
  exact this

/-- C1 witness: a `tenant_1` reader and a concurrent `tenant_1` writer
over the shared pool, exercising `c1_qualified_access_isolated` with
`tenant_2` untouched. -/
theorem c1_qualified_access_isolated_witness :
    requestScript c1Registry c1ClaimAcme = some c1ScriptAcme
    ∧ SysOk c1InitWrite
    ∧ (tenantResolver c1Registry c1ClaimAcme =
        ResolveOutcome.resolved c1ScriptAcme.ns
      ∧ (⟨"tenant_1", [], ["acme_unit", "new_unit"],
          ["tenant_1", "tenant_1"]⟩ : ReqState).ns = c1ScriptAcme.ns
      ∧ "acme_unit" ∈ storedIn
          (runSchedule c1InitWrite [(1, 0), (0, 0), (0, 0)]).stored c1ScriptAcme.ns
      ∧ storedIn (runSchedule c1InitWrite [(1, 0), (0, 0), (0, 0)]).stored
          "tenant_2" = storedIn c1InitWrite.stored "tenant_2") :=
  ⟨by decide, by decide,
    c1_qualified_access_isolated c1Registry c1ClaimAcme 0 c1InitWrite
      [(1, 0), (0, 0), (0, 0)] c1ScriptAcme
      ⟨"tenant_1", [], ["acme_unit", "new_unit"], ["tenant_1", "tenant_1"]⟩
      "acme_unit" "tenant_2" (by decide) (by decide) (by decide) (by decide)
      (by decide) (by decide)⟩

/-- C9 counterexample: the three terminal failures are observably
distinct. `TenantNotFound` and `TenantSuspended` share status 403 but
carry different messages naming the cause, and `MalformedContext` even
differs in status (401), so a caller can tell exactly which condition
occurred — the claim that the observable response does not reveal the
condition is false at these inputs. -/
theorem c9_failures_distinguishable :
    tenantResolver c9Registry c9ClaimNotFound =
      ResolveOutcome.failed 403 "Tenant not found"
    ∧ tenantResolver c9Registry c9ClaimSuspended =
      ResolveOutcome.failed 403 "Tenant account is deactivated. Please contact support."
    ∧ tenantResolver c9Registry c9ClaimMalformed =
      ResolveOutcome.failed 401 "Tenant information missing in authentication token"
    ∧ tenantResolver c9Registry c9ClaimNotFound ≠
        tenantResolver c9Registry c9ClaimSuspended
    ∧ tenantResolver c9Registry c9ClaimNotFound ≠
        tenantResolver c9Registry c9ClaimMalformed
    ∧ tenantResolver c9Registry c9ClaimSuspended ≠
        tenantResolver c9Registry c9ClaimMalformed := by
  decide

/-- C9 as amended: every terminal resolver failure is surfaced in the
401/403 authorization class (never any other status), but the three
conditions render to pairwise distinct observable responses, so the
specific cause is revealed to the caller. -/
theorem c9_failures_authz_class_but_revealing
    (tenants : List TenantRecord) (u : Claim) :
    ((failStatus (tenantResolver tenants u)).all
        (fun st => st == 401 || st == 403)) = true
    ∧ renderState ResolverState.TenantNotFound ≠
        renderState ResolverState.TenantSuspended
    ∧ renderState ResolverState.TenantNotFound ≠
        renderState ResolverState.MalformedContext
    ∧ renderState ResolverState.TenantSuspended ≠
        renderState ResolverState.MalformedContext := by
  refine ⟨?_, by decide, by decide, by decide⟩
  unfold tenantResolver
  by_cases h1 : u.role == "Super Admin"
  · simp [h1, failStatus]
  · simp only [h1]
    by_cases h2 : truthyOptNat u.tenant_id && truthyOptStr u.tenant_schema
    · simp only [h2]
      cases hf : findTenantById tenants (u.tenant_id.getD 0) with
      | none => simp [failStatus]
      | some t =>
        by_cases ha : t.is_active
        · simp [ha, failStatus]
        · simp [ha, failStatus]
    · simp [h2, failStatus]

/-- C3 counterexample: the resolver validates the TenantRecord looked up
by the claimed *identity*, not the record owning the claimed namespace
name. With tenant 1 active and tenant 2 suspended, a claim carrying
tenant 1's id and tenant 2's schema resolves successfully and activates
`tenant_2`, whose owning TenantRecord exists but is inactive — so a
successful resolution *can* activate a namespace whose owning
TenantRecord is inactive, refuting the claim as stated. -/
theorem c3_claimed_schema_not_revalidated :
    tenantResolver c3Registry c3MismatchedClaim = ResolveOutcome.resolved "tenant_2"
    ∧ (c3Registry.any (fun t => t.schema_name == "tenant_2")) = true
    ∧ (c3Registry.all (fun t => t.schema_name != "tenant_2" || !t.is_active)) = true := by
  decide

/-! ## Claim C4: the resolver implements the 4.4 state machine -/

/-- After `authenticateToken`'s `|| null` normalisation, JavaScript
truthiness of the tenant id coincides with presence. -/
theorem truthy_jsOrNullNat (x : Option Nat) :
    truthyOptNat (jsOrNullNat x) = (jsOrNullNat x).isSome := by
  cases x with
  | none => rfl
  | some n =>
    by_cases h : n == 0 <;> simp_all [jsOrNullNat, truthyOptNat]

/-- After `authenticateToken`'s `|| null` normalisation, JavaScript
truthiness of the schema name coincides with presence. -/
theorem truthy_jsOrNullStr (x : Option String) :
    truthyOptStr (jsOrNullStr x) = (jsOrNullStr x).isSome := by
  cases x with
  | none => rfl
  | some s =>
    by_cases h : s == "" <;> simp_all [jsOrNullStr, truthyOptStr]

/-- For any claim whose fields have been normalised (truthiness agrees
with presence), the middleware computes exactly the rendering of the
spec's 4.4 state machine. -/
theorem resolver_renders_spec (ts : List TenantRecord) (u : Claim)
    (hn : truthyOptNat u.tenant_id = u.tenant_id.isSome)
    (hs : truthyOptStr u.tenant_schema = u.tenant_schema.isSome) :
    tenantResolver ts u = renderState (specResolverState ts u) := by
  unfold tenantResolver specResolverState
  by_cases hr : u.role == "Super Admin"
  · simp [hr, renderState]
  · simp only [hr, if_false, Bool.false_eq_true]
    cases hid : u.tenant_id with
    | none =>
      rw [hid] at hn
      simp [hn, renderState]
    | some tid =>
      rw [hid] at hn
      cases hsc : u.tenant_schema with
      | none =>
        rw [hsc] at hs
        simp [hn, hs, renderState]
      | some ns =>
        rw [hsc] at hs
        simp only [hn, hs, Option.isSome_some, Bool.and_self, Bool.not_true,
          Bool.false_eq_true, if_false, Option.getD_some]
        cases hf : findTenantById ts tid with
        | none => simp [renderState]
        | some t =>
          by_cases ha : t.is_active <;> simp [ha, renderState]

/-- C4: for every registry and every decoded token payload, the resolver
run on the authenticated claim (a) equals the rendering of the spec's
4.4 state machine — platform administrators reach the root namespace,
claims with both tenant identity and namespace name are validated by an
identity lookup failing as `TenantNotFound`/`TenantSuspended`, claims
with only one of the two fail as `MalformedContext` with nothing guessed
or defaulted; (b) every terminal failure carries a 401/403-class status;
and (c) the request pipeline short-circuits: on the failure states the
response is the same for every business handler, which is never invoked,
and only `RootActive`/`TenantActive` ever run the handler, against the
resolved namespace. -/
theorem c4_resolver_state_machine (ts : List TenantRecord) (p : TokenPayload) :
    tenantResolver ts (authUser p) = renderState (specResolverState ts (authUser p))
    ∧ ((failStatus (tenantResolver ts (authUser p))).all
        (fun st => st == 401 || st == 403)) = true
    ∧ ∀ (α : Type) (handler : String → α),
        runRequest ts (authUser p) handler =
          match specResolverState ts (authUser p) with
          | ResolverState.RootActive => Except.ok (handler "public")
          | ResolverState.TenantActive ns => Except.ok (handler ns)
          | ResolverState.TenantNotFound => Except.error (403, "Tenant not found")
          | ResolverState.TenantSuspended =>
              Except.error (403, "Tenant account is deactivated. Please contact support.")
          | ResolverState.MalformedContext =>
              Except.error (401, "Tenant information missing in authentication token") := by
  have hmain : tenantResolver ts (authUser p) =
      renderState (specResolverState ts (authUser p)) :=
    resolver_renders_spec ts (authUser p)
      (truthy_jsOrNullNat p.tenant_id) (truthy_jsOrNullStr p.tenant_schema)
  refine ⟨hmain, ?_, ?_⟩
  · rw [hmain]
    cases specResolverState ts (authUser p) <;> simp [renderState, failStatus]
  · intro α handler
    unfold runRequest
    rw [hmain]
    cases specResolverState ts (authUser p) <;> simp [renderState]

/-- A successful scan result comes from a member of the scanned list. -/
theorem scanTenants_mem (db : UserDB) (email : String) :
    ∀ (l : List TenantRecord) (u : TenantUser) (s : String) (tid : Nat),
      scanTenants db email l = some (u, s, tid) →
      ∃ t ∈ l, t.id = tid ∧ t.schema_name = s ∧
        findByEmail db email t.schema_name = some u := by
  intro l
  induction l with
  | nil => intro u s tid h; simp [scanTenants] at h
  | cons t rest ih =>
    intro u s tid h
    unfold scanTenants at h
    cases hf : findByEmail db email t.schema_name with
    | some u0 =>
      rw [hf] at h
      simp only [Option.some.injEq, Prod.mk.injEq] at h
      obtain ⟨hu, hs, hid⟩ := h
      refine ⟨t, List.mem_cons_self t rest, hid, hs, ?_⟩
      rw [hf, hu]
    | none =>
      rw [hf] at h
      obtain ⟨t', ht', h1, h2, h3⟩ := ih u s tid h
      exact ⟨t', List.mem_cons_of_mem t ht', h1, h2, h3⟩

/-- A scan over namespaces that all miss returns nothing. -/
theorem scanTenants_none (db : UserDB) (email : String) :
    ∀ l : List TenantRecord,
      (∀ t ∈ l, findByEmail db email t.schema_name = none) →
      scanTenants db email l = none := by
  intro l
  induction l with
  | nil => intro _; rfl
  | cons t rest ih =>
    intro h
    unfold scanTenants
    rw [h t (List.mem_cons_self t rest)]
    exact ih (fun t' ht' => h t' (List.mem_cons_of_mem t ht'))

/-- The scan is exactly "first element whose scoped lookup matches". -/
theorem scanTenants_eq_find (db : UserDB) (email : String) :
    ∀ l : List TenantRecord,
      scanTenants db email l =
        match l.find? (fun t => (findByEmail db email t.schema_name).isSome) with
        | none => none
        | some t => (findByEmail db email t.schema_name).map
            (fun u => (u, t.schema_name, t.id)) := by
  intro l
  induction l with
  | nil => rfl
  | cons t rest ih =>
    unfold scanTenants
    cases hf : findByEmail db email t.schema_name with
    | some u => simp [List.find?_cons, hf]
    | none => simp [List.find?_cons, hf, ih]

/-- C6: the cross-namespace login lookup (a) only ever returns a
principal belonging to an active TenantRecord — so an identifier present
in both an active and a suspended namespace resolves to the active
tenant's principal; (b) equals a first-match search over the
enumeration of active tenants, one scoped lookup per namespace; (c)
returns nothing when no active tenant's namespace holds the identifier —
in particular an identifier existing only in a suspended tenant's
namespace is never found; and (d) returns a principal whenever the
enumeration succeeds and some active tenant's namespace holds the
identifier. -/
theorem c6_cross_namespace_lookup (db : UserDB) (email : String) :
    resultSchemaActive db email = true
    ∧ findByEmailAcrossTenants db email =
        (if db.failTenantEnum then none
         else
           match (db.tenants.filter (fun t => t.is_active)).find?
               (fun t => (findByEmail db email t.schema_name).isSome) with
           | none => none
           | some t => (findByEmail db email t.schema_name).map
               (fun u => (u, t.schema_name, t.id)))
    ∧ ((!(db.tenants.all (fun t => !t.is_active
            || (findByEmail db email t.schema_name).isNone)))
        || (findByEmailAcrossTenants db email).isNone) = true
    ∧ (db.failTenantEnum
        || !(db.tenants.any (fun t => t.is_active
              && (findByEmail db email t.schema_name).isSome))
        || (findByEmailAcrossTenants db email).isSome) = true := by
  refine ⟨?_, ?_, ?_, ?_⟩
  · cases hr : findByEmailAcrossTenants db email with
    | none => unfold resultSchemaActive; rw [hr]
    | some r =>
      obtain ⟨u, s, tid⟩ := r
      unfold resultSchemaActive
      rw [hr]
      unfold findByEmailAcrossTenants at hr
      by_cases he : db.failTenantEnum
      · simp [he] at hr
      · simp only [he, if_false] at hr
        obtain ⟨t, htmem, hid, hs, _⟩ := scanTenants_mem db email _ u s tid hr
        have hmem := List.mem_filter.mp htmem
        rw [List.any_eq_true]
        exact ⟨t, hmem.1, by simp [hid, hs, hmem.2]⟩
  · unfold findByEmailAcrossTenants
    by_cases he : db.failTenantEnum
    · simp [he]
    · simp only [he, if_false]
      exact scanTenants_eq_find db email _
  · by_cases hall : db.tenants.all
        (fun t => !t.is_active || (findByEmail db email t.schema_name).isNone)
    · have hnone : findByEmailAcrossTenants db email = none := by
        unfold findByEmailAcrossTenants
        by_cases he : db.failTenantEnum
        · simp [he]
        · simp only [he, if_false]
          refine scanTenants_none db email _ ?_
          intro t ht
          have hmem := List.mem_filter.mp ht
          have := List.all_eq_true.mp hall t hmem.1
          rw [hmem.2] at this
          simp only [Bool.not_true, Bool.false_or] at this
          exact Option.isNone_iff_eq_none.mp this
      simp [hall, hnone]
    · simp [hall]
  · by_cases he : db.failTenantEnum
    · simp [he]
    · by_cases hany : db.tenants.any
          (fun t => t.is_active && (findByEmail db email t.schema_name).isSome)
      · simp only [he, hany, Bool.false_or, Bool.not_true, Bool.false_or]
        obtain ⟨t, htmem, hpred⟩ := List.any_eq_true.mp hany
        obtain ⟨hact, hlk⟩ : t.is_active = true ∧
            (findByEmail db email t.schema_name).isSome = true := by
          simpa using hpred
        unfold findByEmailAcrossTenants
        simp only [he, if_false]
        rw [scanTenants_eq_find db email]
        have hfind : ((db.tenants.filter (fun t => t.is_active)).find?
            (fun t => (findByEmail db email t.schema_name).isSome)).isSome = true := by
          rw [List.find?_isSome]
          exact ⟨t, List.mem_filter.mpr ⟨htmem, hact⟩, hlk⟩
        cases hcase : (db.tenants.filter (fun t => t.is_active)).find?
            (fun t => (findByEmail db email t.schema_name).isSome) with
        | none => rw [hcase] at hfind; simp at hfind
        | some t' =>
          have hp := List.find?_some hcase
          cases hu : findByEmail db email t'.schema_name with
          | none => rw [hu] at hp; simp at hp
          | some u => simp [hu]
      · simp [he, hany]

/-! ## Claim C5: deactivation takes effect on the very next request -/

/-- The `UPDATE ... SET is_active = false WHERE id = :id` of
`deactivate` turns the row the resolver will find for `tid` into an
inactive one. -/
theorem findTenantById_map_deactivate :
    ∀ (ts : List TenantRecord) (tid : Nat) (t : TenantRecord),
      findTenantById ts tid = some t →
      findTenantById (ts.map (fun r =>
          if r.id == tid then { r with is_active := false } else r)) tid =
        some { t with is_active := false } := by
  intro ts
  induction ts with
  | nil => intro tid t h; simp [findTenantById] at h
  | cons r rest ih =>
    intro tid t h
    by_cases hr : r.id == tid
    · have ht : t = r := by
        unfold findTenantById at h
        rw [List.find?_cons, hr] at h
        exact (Option.some.inj h).symm
      subst ht
      unfold findTenantById
      rw [List.map_cons, List.find?_cons]
      simp only [hr, if_true]
    · unfold findTenantById at h ⊢
      rw [List.find?_cons] at h
      simp only [hr, Bool.false_eq_true, if_false] at h
      simp only [List.map_cons]
      rw [if_neg (by simpa using hr), List.find?_cons]
      simp only [hr, Bool.false_eq_true, if_false]
      exact ih tid t h

/-- A tenant-user claim whose identity lookup finds an inactive
TenantRecord resolves to the `TenantSuspended` failure. -/
theorem resolver_suspends (ts : List TenantRecord) (u : Claim)
    (tid : Nat) (schemaN : String) (t : TenantRecord)
    (hrole : u.role ≠ "Super Admin")
    (hid : u.tenant_id = some tid) (h0 : tid ≠ 0)
    (hs : u.tenant_schema = some schemaN) (hsne : schemaN ≠ "")
    (hfind : findTenantById ts tid = some t)
    (hinact : t.is_active = false) :
    tenantResolver ts u =
      ResolveOutcome.failed 403
        "Tenant account is deactivated. Please contact support." := by
  unfold tenantResolver
  rw [if_neg (by simpa using hrole)]
  rw [hid, hs]
  simp only [truthyOptNat, truthyOptStr]
  rw [if_neg (by simp [h0, hsne])]
  simp only [Option.getD_some]
  rw [hfind]
  simp [hinact]

/-- C5: after `deactivateTenant` succeeds for tenant `tid`, any request
presenting a still-unexpired token for that tenant fails resolution with
the `TenantSuspended` failure (403), because the resolver re-reads
`TenantRecord.is_active` from `public.tenants` on every request instead
of trusting the token's snapshot; nothing in the resolver consults the
token's expiry-based validity. The conclusion depends only on the
post-deactivation registry, so it holds for the very next request and
every later one in which the record remains inactive. -/
theorem c5_suspension_immediate (ts ts2 : List TenantRecord) (tid : Nat)
    (p : TokenPayload) (nowT : Nat) (u : Claim) (schemaN : String)
    (hauth : authenticateToken p nowT = some u)
    (hrole : u.role ≠ "Super Admin")
    (hid : u.tenant_id = some tid) (h0 : tid ≠ 0)
    (hs : u.tenant_schema = some schemaN) (hsne : schemaN ≠ "")
    (hd : deactivateTenant ts tid = Except.ok ts2) :
    tenantResolver ts2 u =
      ResolveOutcome.failed 403
        "Tenant account is deactivated. Please contact support." := by
  unfold deactivateTenant at hd
  cases hfind : findTenantById ts tid with
  | none => rw [hfind] at hd; exact absurd hd (by simp)
  | some t =>
    rw [hfind] at hd
    by_cases hact : t.is_active
    · simp only [hact, Bool.not_true, Bool.false_eq_true, if_false,
        Except.ok.injEq] at hd
      subst hd
      exact resolver_suspends _ u tid schemaN _ hrole hid h0 hs hsne
        (findTenantById_map_deactivate ts tid t hfind) rfl
    · have hact' : t.is_active = false := by simpa using hact
      simp only [hact', Bool.not_false, if_true, Except.ok.injEq] at hd
      subst hd
      exact resolver_suspends _ u tid schemaN t hrole hid h0 hs hsne hfind hact'

/-- C5 witness: a concrete registry, token and deactivation exercising
`c5_suspension_immediate`. -/
theorem c5_suspension_immediate_witness :
    authenticateToken ⟨"Builder", some 1, some "tenant_1", 100⟩ 10 =
      some ⟨"Builder", some 1, some "tenant_1"⟩
    ∧ deactivateTenant [⟨1, "Acme", "tenant_1", true⟩] 1 =
        Except.ok [⟨1, "Acme", "tenant_1", false⟩]
    ∧ tenantResolver [⟨1, "Acme", "tenant_1", false⟩]
        ⟨"Builder", some 1, some "tenant_1"⟩ =
      ResolveOutcome.failed 403
        "Tenant account is deactivated. Please contact support." :=
  ⟨by decide, by decide,
    c5_suspension_immediate [⟨1, "Acme", "tenant_1", true⟩]
      [⟨1, "Acme", "tenant_1", false⟩] 1
      ⟨"Builder", some 1, some "tenant_1", 100⟩ 10
      ⟨"Builder", some 1, some "tenant_1"⟩ "tenant_1"
      (by decide) (by decide) (by decide) (by decide) (by decide) (by decide)
      (by decide)⟩

/-! ## Claims C2 and C7: onboarding atomicity and the inserted row -/

/-- When any step after the TenantRecord INSERT fails, `createTenant`
reports the failure, the transaction rollback leaves the committed
`public.tenants` rows untouched, and the id sequence stays consumed. -/
theorem createTenant_rollback (db : RootDB) (name adminEmail : String)
    (now : Nat) (f : FailureSpec)
    (hnoconf : (db.tenants.any
        (fun t => t.schema_name == tempSchemaName name now)) = false)
    (hfail : f.failUpdate = true ∨ f.failCreateSchema = true
      ∨ f.failMigration = true ∨ f.failAdmin = true) :
    (createTenant db name adminEmail now f).1 =
      Except.error (SvcErr.internal "Failed to create tenant")
    ∧ (createTenant db name adminEmail now f).2.tenants = db.tenants
    ∧ (createTenant db name adminEmail now f).2.nextId = db.nextId + 1 := by
  obtain ⟨fu, fc, fm, fa⟩ := f
  unfold createTenant
  rw [hnoconf]
  cases fu <;> cases fc <;> cases fm <;> cases fa <;> simp_all

/-- The all-success run of `createTenant`: the committed tenant carries
the identity-derived namespace name and `is_active = true`, and becomes
observable (committed) together with its admin row. -/
theorem createTenant_success (db : RootDB) (name adminEmail : String)
    (now : Nat)
    (hnoconf : (db.tenants.any
        (fun t => t.schema_name == tempSchemaName name now)) = false) :
    createTenant db name adminEmail now noFailure =
      (Except.ok ⟨db.nextId, name, generateSchemaName db.nextId, true⟩,
       ⟨db.tenants ++ [⟨db.nextId, name, generateSchemaName db.nextId, true⟩],
        db.nextId + 1,
        (if db.schemas.contains (generateSchemaName db.nextId) then db.schemas
         else db.schemas ++ [generateSchemaName db.nextId]),
        db.admins ++ [⟨generateSchemaName db.nextId, adminEmail⟩]⟩) := by
  simp [createTenant, noFailure, hnoconf, insertedTenantRow]

/-- C2: when onboarding fails at the schema-name update, the schema
creation, the migration, or the admin creation, the attempt errors and
afterwards (a) the committed TenantRecords are exactly the old ones, so
(b) no committed TenantRecord is active under that attempt's final
namespace name `tenant_<nextId>`; and a retried onboarding with the same
metadata (c) succeeds, committing a record whose namespace name is
derived from the freshly-assigned identity `nextId + 1`, which is (d)
distinct from the failed attempt's namespace name and (e) collides with
no observable record's namespace name. -/
theorem c2_failed_onboarding_invisible_retry_fresh (db : RootDB)
    (name adminEmail : String) (now now2 : Nat) (f : FailureSpec)
    (hfresh : freshNames db)
    (hfail : f.failUpdate = true ∨ f.failCreateSchema = true
      ∨ f.failMigration = true ∨ f.failAdmin = true)
    (hnoconf : (db.tenants.any
        (fun t => t.schema_name == tempSchemaName name now)) = false)
    (hretry : ((createTenant db name adminEmail now f).2.tenants.any
        (fun t => t.schema_name == tempSchemaName name now2)) = false) :
    (createTenant db name adminEmail now f).1 =
      Except.error (SvcErr.internal "Failed to create tenant")
    ∧ (createTenant db name adminEmail now f).2.tenants = db.tenants
    ∧ ((createTenant db name adminEmail now f).2.tenants.all
        (fun t => !(t.is_active && t.schema_name == generateSchemaName db.nextId)))
       = true
    ∧ (createTenant (createTenant db name adminEmail now f).2
          name adminEmail now2 noFailure).1 =
        Except.ok ⟨db.nextId + 1, name, generateSchemaName (db.nextId + 1), true⟩
    ∧ generateSchemaName (db.nextId + 1) ≠ generateSchemaName db.nextId
    ∧ ((createTenant db name adminEmail now f).2.tenants.all
        (fun t => !(t.schema_name == generateSchemaName (db.nextId + 1)))) = true := by
  obtain ⟨h1, h2, h3⟩ := createTenant_rollback db name adminEmail now f hnoconf hfail
  refine ⟨h1, h2, ?_, ?_, ?_, ?_⟩
  · rw [h2, List.all_eq_true]
    intro t ht
    have hne : t.schema_name ≠ generateSchemaName db.nextId :=
      hfresh t ht db.nextId (Nat.le_refl _)
    simp [hne]
  · have hsucc := createTenant_success (createTenant db name adminEmail now f).2
      name adminEmail now2 hretry
    rw [hsucc, h3]
  · intro hcl
    have := generateSchemaName_injective _ _ hcl
    omega
  · rw [h2, List.all_eq_true]
    intro t ht
    have hne : t.schema_name ≠ generateSchemaName (db.nextId + 1) :=
      hfresh t ht (db.nextId + 1) (Nat.le_succ _)
    simp [hne]

/-- C2 witness: a failed onboarding over the empty store followed by a
successful retry, exercising
`c2_failed_onboarding_invisible_retry_fresh` with the migration step
failing. -/
theorem c2_failed_onboarding_invisible_retry_fresh_witness :
    freshNames ⟨[], 1, [], []⟩
    ∧ ((createTenant ⟨[], 1, [], []⟩ "Acme" "alice@acme.test" 5
          ⟨false, false, true, false⟩).1 =
        Except.error (SvcErr.internal "Failed to create tenant")
      ∧ (createTenant ⟨[], 1, [], []⟩ "Acme" "alice@acme.test" 5
          ⟨false, false, true, false⟩).2.tenants = []
      ∧ (((createTenant ⟨[], 1, [], []⟩ "Acme" "alice@acme.test" 5
          ⟨false, false, true, false⟩).2.tenants.all
          (fun t => !(t.is_active && t.schema_name == generateSchemaName 1)))
         = true)
      ∧ (createTenant (createTenant ⟨[], 1, [], []⟩ "Acme" "alice@acme.test" 5
            ⟨false, false, true, false⟩).2 "Acme" "alice@acme.test" 6 noFailure).1 =
          Except.ok ⟨2, "Acme", generateSchemaName 2, true⟩
      ∧ generateSchemaName 2 ≠ generateSchemaName 1
      ∧ (((createTenant ⟨[], 1, [], []⟩ "Acme" "alice@acme.test" 5
          ⟨false, false, true, false⟩).2.tenants.all
          (fun t => !(t.schema_name == generateSchemaName 2))) = true)) :=
  ⟨fun t ht => by simp at ht,
    c2_failed_onboarding_invisible_retry_fresh ⟨[], 1, [], []⟩
      "Acme" "alice@acme.test" 5 6 ⟨false, false, true, false⟩
      (fun t ht => by simp at ht) (Or.inr (Or.inr (Or.inl rfl)))
      (by decide) (by decide)⟩

/-- C7 counterexample: step 2 of the implemented onboarding INSERTs the
TenantRecord with `is_active: true`, not `active=false` — evaluated at a
concrete input, the freshly inserted row's active flag is not `false`,
refuting the claimed insert-inactive/flip-at-step-6 protocol (there is
no later step that flips the flag at all). -/
theorem c7_insert_is_active_true :
    (insertedTenantRow "Acme" 5 7).is_active = true
    ∧ ((insertedTenantRow "Acme" 5 7).is_active == false) = false := by
  decide

/-- C7 as amended: onboarding inserts the TenantRecord with the
temporary placeholder namespace name but with `is_active = true` inside
the onboarding transaction, and the flag is never flipped; atomic
visibility comes from the transaction instead — on the all-success run
the record (final identity-derived name, still active) is committed,
while on a failed run the rollback leaves the committed rows unchanged,
so an active record under that attempt's name is never observable. -/
theorem c7_insert_active_in_transaction (db : RootDB)
    (name adminEmail : String) (now : Nat) (f : FailureSpec)
    (hnoconf : (db.tenants.any
        (fun t => t.schema_name == tempSchemaName name now)) = false)
    (hf : f.failMigration = true) :
    (insertedTenantRow name now db.nextId).schema_name = tempSchemaName name now
    ∧ (insertedTenantRow name now db.nextId).is_active = true
    ∧ (createTenant db name adminEmail now noFailure).1 =
        Except.ok ⟨db.nextId, name, generateSchemaName db.nextId, true⟩
    ∧ (createTenant db name adminEmail now noFailure).2.tenants =
        db.tenants ++ [⟨db.nextId, name, generateSchemaName db.nextId, true⟩]
    ∧ (createTenant db name adminEmail now f).2.tenants = db.tenants := by
  have hsucc := createTenant_success db name adminEmail now hnoconf
  obtain ⟨-, h2, -⟩ := createTenant_rollback db name adminEmail now f hnoconf
    (Or.inr (Or.inr (Or.inl hf)))
  exact ⟨rfl, rfl, by rw [hsucc], by rw [hsucc], h2⟩

/-- C7 witness: the amended statement evaluated over the empty store. -/
theorem c7_insert_active_in_transaction_witness :
    (insertedTenantRow "Acme" 5 1).schema_name = tempSchemaName "Acme" 5
    ∧ (insertedTenantRow "Acme" 5 1).is_active = true
    ∧ (createTenant ⟨[], 1, [], []⟩ "Acme" "alice@acme.test" 5 noFailure).1 =
        Except.ok ⟨1, "Acme", generateSchemaName 1, true⟩
    ∧ (createTenant ⟨[], 1, [], []⟩ "Acme" "alice@acme.test" 5 noFailure).2.tenants =
        [] ++ [⟨1, "Acme", generateSchemaName 1, true⟩]
    ∧ (createTenant ⟨[], 1, [], []⟩ "Acme" "alice@acme.test" 5
        ⟨false, false, true, false⟩).2.tenants = [] :=
  c7_insert_active_in_transaction ⟨[], 1, [], []⟩ "Acme" "alice@acme.test" 5
    ⟨false, false, true, false⟩ (by decide) rfl

/-! ## Claim C8: structural provisioning is idempotent -/

/-- A single Umzug step preserves the schema-container flag, never
removes recorded migrations, and leaves the step's migration recorded. -/
theorem upStep_ok (st st' : NamespaceState) (migration : String)
    (h : upStep st migration = Except.ok st') :
    st'.created = st.created
    ∧ (∀ m ∈ st.applied, m ∈ st'.applied)
    ∧ migration ∈ st'.applied := by
  unfold upStep at h
  by_cases hc : st.applied.contains migration
  · rw [if_pos hc] at h
    have hst : st' = st := (Except.ok.inj h).symm
    subst hst
    exact ⟨rfl, fun m hm => hm, by simpa using hc⟩
  · rw [if_neg hc] at h
    unfold execMigration at h
    by_cases ht : st.tables.contains (migrationTable migration)
    · rw [if_pos ht] at h
      exact absurd h (by simp)
    · rw [if_neg ht] at h
      have hst : st' = { st with tables := st.tables ++ [migrationTable migration],
                                 applied := st.applied ++ [migration] } :=
        (Except.ok.inj h).symm
      subst hst
      refine ⟨rfl, fun m hm => List.mem_append_left _ hm, ?_⟩
      exact List.mem_append_right _ (List.mem_singleton.mpr rfl)

/-- A successful Umzug run records every migration of its list while
preserving the schema flag and the previously recorded migrations. -/
theorem upRun_ok (names : List String) :
    ∀ (s s' : NamespaceState), upRun s names = Except.ok s' →
      s'.created = s.created
      ∧ (∀ m ∈ s.applied, m ∈ s'.applied)
      ∧ (∀ m ∈ names, m ∈ s'.applied) := by
  induction names with
  | nil =>
    intro s s' h
    have hs : s' = s := (Except.ok.inj h).symm
    subst hs
    exact ⟨rfl, fun m hm => hm, fun m hm => by simp at hm⟩
  | cons migration rest ih =>
    intro s s' h
    unfold upRun at h
    cases hstep : upStep s migration with
    | error e => rw [hstep] at h; exact absurd h (by simp)
    | ok s1 =>
      rw [hstep] at h
      obtain ⟨h1, h2, h3⟩ := upStep_ok s s1 migration hstep
      obtain ⟨g1, g2, g3⟩ := ih s1 s' h
      refine ⟨g1.trans h1, fun m hm => g2 m (h2 m hm), ?_⟩
      intro m hm
      cases List.mem_cons.mp hm with
      | inl he => subst he; exact g2 m h3
      | inr hr => exact g3 m hr

/-- An Umzug run over migrations that are all recorded already is an
error-free no-op. -/
theorem upRun_skip (names : List String) :
    ∀ s : NamespaceState, (∀ m ∈ names, m ∈ s.applied) →
      upRun s names = Except.ok s := by
  induction names with
  | nil => intro s _; rfl
  | cons migration rest ih =>
    intro s h
    unfold upRun
    have hc : s.applied.contains migration = true := by
      have := h migration (List.mem_cons_self _ _)
      simpa using this
    have hstep : upStep s migration = Except.ok s := by
      unfold upStep
      rw [if_pos hc]
    rw [hstep]
    exact ih s (fun m hm => h m (List.mem_cons_of_mem _ hm))

/-- C8: provisioning is idempotent. If `createSchema` followed by
`runTenantMigration up` succeeded and produced structural state `s1`,
then invoking both again on `s1` raises no error and returns `s1`
unchanged: `CREATE SCHEMA IF NOT EXISTS` is a no-op on the existing
container, and every migration step is recorded as applied, so Umzug
skips it instead of re-creating its table. -/
theorem c8_provisioning_idempotent (s s1 : NamespaceState)
    (h : provisionNamespace s = Except.ok s1) :
    provisionNamespace s1 = Except.ok s1 := by
  unfold provisionNamespace runTenantMigrationUp at h ⊢
  obtain ⟨h1, -, h3⟩ := upRun_ok tenantMigrationNames (createSchemaStep s) s1 h
  have hcreated : s1.created = true := by
    rw [h1]
    rfl
  have hstep : createSchemaStep s1 = s1 := by
    unfold createSchemaStep
    cases s1 with
    | mk c t a =>
      simp only at hcreated
      rw [hcreated]
  rw [hstep]
  exact upRun_skip tenantMigrationNames s1 h3

/-- C8 witness: provisioning the fresh namespace and re-provisioning its
result, exercising `c8_provisioning_idempotent`. -/
theorem c8_provisioning_idempotent_witness :
    provisionNamespace emptyNamespace =
      Except.ok ⟨true, ["users", "projects", "units", "audit_logs"],
        tenantMigrationNames⟩
    ∧ provisionNamespace
        ⟨true, ["users", "projects", "units", "audit_logs"], tenantMigrationNames⟩ =
      Except.ok ⟨true, ["users", "projects", "units", "audit_logs"],
        tenantMigrationNames⟩ :=
  ⟨by decide,
    c8_provisioning_idempotent emptyNamespace
      ⟨true, ["users", "projects", "units", "audit_logs"], tenantMigrationNames⟩
      (by decide)⟩

/-- C3 as amended: before activating anything, the resolver re-validates
the TenantRecord looked up by the claimed tenant *identity*: a
successful non-root resolution implies that record exists and is active,
and the activated namespace is exactly the claimed namespace name. When
the claimed namespace name is the one recorded on that record — the only
pairing login ever issues — the owning TenantRecord of the activated
namespace is therefore active. The record owning an arbitrary claimed
namespace name is not itself looked up. -/
theorem c3_resolver_validates_claimed_identity (ts : List TenantRecord)
    (u : Claim) (s : String)
    (hrole : u.role ≠ "Super Admin")
    (hres : tenantResolver ts u = ResolveOutcome.resolved s) :
    ((findTenantById ts (u.tenant_id.getD 0)).map TenantRecord.is_active).getD false
      = true
    ∧ s = u.tenant_schema.getD ""
    ∧ (!(((findTenantById ts (u.tenant_id.getD 0)).map
          (fun t => t.schema_name == s)).getD false)
        || ts.any (fun t => t.schema_name == s && t.is_active)) = true := by
  unfold tenantResolver at hres
  rw [if_neg (by simpa using hrole)] at hres
  by_cases htr : (truthyOptNat u.tenant_id && truthyOptStr u.tenant_schema) = true
  · rw [if_neg (by simp [htr])] at hres
    cases hf : findTenantById ts (u.tenant_id.getD 0) with
    | none => rw [hf] at hres; exact absurd hres (by simp)
    | some t =>
      rw [hf] at hres
      by_cases hact : t.is_active
      · have hs : u.tenant_schema.getD "" = s := by
          simpa [hact] using hres
        have htmem : t ∈ ts := by
          unfold findTenantById at hf
          exact List.mem_of_find?_eq_some hf
        refine ⟨by simp [hf, hact], hs.symm, ?_⟩
        by_cases hsch : (t.schema_name == s) = true
        · have hany : ts.any (fun t => t.schema_name == s && t.is_active) = true := by
            rw [List.any_eq_true]
            exact ⟨t, htmem, by simp [hsch, hact]⟩
          simp [hany]
        · simp [hf, hsch]
      · simp [hact] at hres
  · rw [if_pos (by simp [htr])] at hres
    exact absurd hres (by simp)

/-- C3 witness: the honest pairing of identity and namespace name,
exercising `c3_resolver_validates_claimed_identity`. -/
theorem c3_resolver_validates_claimed_identity_witness :
    tenantResolver [⟨1, "Acme", "tenant_1", true⟩]
        ⟨"Builder", some 1, some "tenant_1"⟩ = ResolveOutcome.resolved "tenant_1"
    ∧ (((findTenantById ([⟨1, "Acme", "tenant_1", true⟩] : List TenantRecord)
            ((some 1).getD 0)).map TenantRecord.is_active).getD false = true
      ∧ "tenant_1" = (some "tenant_1").getD ""
      ∧ (!(((findTenantById ([⟨1, "Acme", "tenant_1", true⟩] : List TenantRecord)
            ((some 1).getD 0)).map
            (fun t => t.schema_name == "tenant_1")).getD false)
          || ([⟨1, "Acme", "tenant_1", true⟩] : List TenantRecord).any
              (fun t => t.schema_name == "tenant_1" && t.is_active)) = true) :=
  ⟨by decide,
    c3_resolver_validates_claimed_identity [⟨1, "Acme", "tenant_1", true⟩]
      ⟨"Builder", some 1, some "tenant_1"⟩ "tenant_1" (by decide) (by decide)⟩

/-- C10 counterexample: during the scan the per-namespace lookup against
`tenant_1` throws at the storage layer, yet `findByEmailAcrossTenants`
does not return null — `findByEmail` absorbs the error into a non-match,
the loop continues, and the `tenant_2` principal is returned; the login
even succeeds. This refutes the claim that the cross-tenant lookup
returns null whenever any per-namespace lookup throws (and that an
infrastructure failure during the scan always surfaces as
`Invalid credentials`). -/
theorem c10_scan_error_does_not_nullify :
    c10Db.failSchemas.contains "tenant_1" = true
    ∧ (c10Db.tenants.filter (fun t => t.is_active)).map TenantRecord.schema_name =
        ["tenant_1", "tenant_2"]
    ∧ findByEmail c10Db "bob@x.test" "tenant_1" = none
    ∧ findByEmailAcrossTenants c10Db "bob@x.test" = some (c10User, "tenant_2", 2)
    ∧ tenantUserLogin c10Db "bob@x.test" "pw" =
        Except.ok (c10User, "tenant_2", 2) := by
  decide

/-- C10 as amended: every database error in the login lookup is absorbed
as absence at the point it occurs — a failed per-namespace query makes
`findByEmail` return null (a non-match for that namespace, after which
the scan continues), and a failed tenant enumeration makes the whole
lookup null; consequently `tenantUserLogin` raises the same generic
`UnauthorizedError('Invalid credentials')` for an enumeration failure,
for an identifier no scanned namespace holds, and for a wrong password,
while `ForbiddenError('Account is deactivated')` is raised only for a
found, password-verified but deactivated principal. -/
theorem c10_errors_absorbed_generic_unauthorized (db : UserDB)
    (email pw sch : String) :
    (!(db.failSchemas.contains sch) || (findByEmail db email sch).isNone) = true
    ∧ (!db.failTenantEnum || isInvalidCred (tenantUserLogin db email pw)) = true
    ∧ ((findByEmailAcrossTenants db email).isSome
        || isInvalidCred (tenantUserLogin db email pw)) = true
    ∧ (!(foundWrongPw db email pw)
        || isInvalidCred (tenantUserLogin db email pw)) = true
    ∧ (!(isAccountDeactivated (tenantUserLogin db email pw))
        || foundDeactivatedGoodPw db email pw) = true := by
  refine ⟨?_, ?_, ?_, ?_, ?_⟩
  · by_cases hc : db.failSchemas.contains sch = true
    · have hnone : findByEmail db email sch = none := by
        unfold findByEmail
        rw [if_pos hc]
      simp [hnone]
    · have hcf : db.failSchemas.contains sch = false := by simpa using hc
      simp only [hcf, Bool.not_false, Bool.true_or]
  · by_cases he : db.failTenantEnum
    · simp [tenantUserLogin, findByEmailAcrossTenants, he, isInvalidCred]
    · simp [he]
  · cases hr : findByEmailAcrossTenants db email with
    | none => simp [tenantUserLogin, hr, isInvalidCred]
    | some r => simp
  · cases hr : findByEmailAcrossTenants db email with
    | none => simp [foundWrongPw, hr]
    | some r =>
      obtain ⟨u, sc, tid⟩ := r
      by_cases hv : verifyPassword pw u.password_hash
      · simp [foundWrongPw, hr, hv]
      · simp [foundWrongPw, tenantUserLogin, hr, hv, isInvalidCred]
  · cases hr : findByEmailAcrossTenants db email with
    | none => simp [tenantUserLogin, hr, isAccountDeactivated]
    | some r =>
      obtain ⟨u, sc, tid⟩ := r
      by_cases hv : verifyPassword pw u.password_hash
      · by_cases hact : u.is_active
        · simp [tenantUserLogin, hr, hv, hact, isAccountDeactivated]
        · simp [tenantUserLogin, hr, hv, hact, isAccountDeactivated,
            foundDeactivatedGoodPw]
      · simp [tenantUserLogin, hr, hv, isAccountDeactivated]

end MultiTenant
